import Mathlib

set_option maxRecDepth 10000

namespace Exemplar

/-! Shallow embedding of the exemplar repository's search-aggregation and
flashcard-export core: `src/src/main/services/anki.ts` (AnkiService) and the
App component's `handleSearch` / `handlePageChange` handlers. -/

/-- Modelled from the spec: the shared types module is not under src; the field
shapes follow §3 of the design document and the field accesses in
src/src/main/services/anki.ts (text, translation, category). -/
structure ExamplePhrase where
  text : String
  translation : String
  category : String
deriving DecidableEq

/-- Modelled from the spec: opaque image record with at least a thumbnail
reference (§3); only `thumbnail` is accessed by the code under src. -/
structure ImageResult where
  thumbnail : String
deriving DecidableEq

/-- Paginated image result, as constructed by the App's image fallback and
returned by the image-search collaborator. -/
structure PaginatedImageResult where
  images : List ImageResult
  currentPage : Nat
  totalPages : Nat
  hasNext : Bool
  hasPrevious : Bool
deriving DecidableEq

/-- Merged search view model built in handleSearch. -/
structure SearchResult where
  word : String
  images : List ImageResult
  phrases : List ExamplePhrase
deriving DecidableEq

/-- AnkiCard, the export unit (anki.ts lines 3-9). Optional fields are Options. -/
structure AnkiCard where
  word : String
  explanation : String
  phrase : ExamplePhrase
  image : Option ImageResult
  audioUrl : Option String
deriving DecidableEq

/-- One request issued by AnkiService to the AnkiConnect bridge, carrying the
payload fields the claims talk about.  `addNote` records deckName, modelName,
the Front and Back fields and the tags, in the order built at anki.ts 84-98. -/
inductive Call where
  | deckNames
  | createDeck (deck : String)
  | addNote (deck : String) (model : String) (front : String) (back : String) (tags : List String)
  | storeMedia (filename : String)
deriving DecidableEq

/-- State of the remote AnkiConnect tool plus its scripted behaviour: the decks
it currently knows, whether deckNames / createDeck requests succeed, and the
per-addNote outcome stream `noteOk` indexed by `sent`, the number of addNote
requests issued so far.  A successful createDeck registers the deck, as the
real AnkiConnect does. -/
structure RemoteState where
  decks : List String
  deckNamesOk : Bool
  createDeckOk : Bool
  noteOk : Nat → Bool
  sent : Nat

/-- AnkiService.getDeckNames (anki.ts 39-50): returns the deck list, or [] when
the request errors (both the non-null `error` and the thrown-transport paths
return []). -/
def getDeckNamesStep (s : RemoteState) : List String × RemoteState × List Call :=
  (if s.deckNamesOk then s.decks else [], s, [Call.deckNames])

/-- AnkiService.createDeck (anki.ts 52-66): true iff the request succeeds; a
successful creation registers the deck on the remote side. -/
def createDeckStep (deckName : String) (s : RemoteState) : Bool × RemoteState × List Call :=
  if s.createDeckOk then
    (true, { s with decks := s.decks ++ [deckName] }, [Call.createDeck deckName])
  else
    (false, s, [Call.createDeck deckName])

/-- JS String.prototype.toLowerCase as applied to card words (anki.ts 95),
modelled per character over the string's character list. -/
def lowercase (s : String) : String :=
  String.mk (s.data.map Char.toLower)

/-- JS String.prototype.trim as used by the handler guards, modelled by
dropping whitespace characters from both ends of the character list. -/
def jsTrim (s : String) : String :=
  String.mk (((s.data.dropWhile Char.isWhitespace).reverse.dropWhile
    Char.isWhitespace).reverse)

/-- AnkiService.formatCard (anki.ts 135-177): builds the front and back HTML
fragments from the card, transcribing the template literals of the source
(imageHtml and audioHtml are empty when the optional field is absent; the
explanation block is dropped when the explanation string is empty/falsy). -/
def formatCard (card : AnkiCard) : String × String :=
  let imageHtml : String :=
    match card.image with
    | some img =>
      "<img src=\"" ++ img.thumbnail ++ "\" alt=\"" ++ card.word ++
        "\" style=\"max-width: 300px; height: auto; border-radius: 8px; margin-bottom: 16px;\">"
    | none => ""
  let audioHtml : String :=
    match card.audioUrl with
    | some url =>
      "<audio controls style=\"width: 100%; margin-top: 16px;\"><source src=\"" ++ url ++
        "\" type=\"audio/mpeg\">Your browser does not support the audio element.</audio>"
    | none => ""
  let explanationHtml : String :=
    if card.explanation = "" then ""
    else
      "<div style=\"background: #f8fafc; border-left: 4px solid #3b82f6; padding: 16px; margin: 16px 0; border-radius: 4px;\">\n                 <h3 style=\"margin: 0 0 8px 0; color: #1e40af;\">Explanation</h3>\n                 <p style=\"margin: 0; color: #374151;\">" ++
        card.explanation ++ "</p>\n               </div>"
  let front : String :=
    "\n      <div style=\"text-align: center; font-family: system-ui, -apple-system, sans-serif;\">\n        " ++
      imageHtml ++
      "\n        <h2 style=\"color: #2563eb; margin: 16px 0; font-size: 2rem; font-weight: bold;\">" ++
      card.word ++ "</h2>\n      </div>\n    "
  let back : String :=
    "\n      <div style=\"font-family: system-ui, -apple-system, sans-serif; line-height: 1.6;\">\n        " ++
      imageHtml ++
      "\n        <h2 style=\"color: #2563eb; margin: 16px 0 24px 0; font-size: 2rem; font-weight: bold;\">" ++
      card.word ++ "</h2>\n        \n        " ++
      explanationHtml ++
      "\n        \n        <div style=\"background: #f0f9ff; border-left: 4px solid #0ea5e9; padding: 16px; margin: 16px 0; border-radius: 4px;\">\n          <h3 style=\"margin: 0 0 8px 0; color: #0369a1;\">Example Phrase</h3>\n          <p style=\"margin: 0 0 8px 0; font-weight: 500; color: #1e293b;\">" ++
      card.phrase.text ++
      "</p>\n          <p style=\"margin: 0; font-style: italic; color: #64748b;\">" ++
      card.phrase.translation ++
      "</p>\n          <span style=\"display: inline-block; background: #dbeafe; color: #1e40af; padding: 4px 8px; border-radius: 12px; font-size: 0.75rem; margin-top: 8px;\">" ++
      card.phrase.category ++
      "</span>\n        </div>\n        \n        " ++
      audioHtml ++ "\n      </div>\n    "
  (front, back)

/-- The addNote request body built at anki.ts 84-98 for one card. -/
def noteOf (deckName : String) (card : AnkiCard) : Call :=
  Call.addNote deckName "Basic" (formatCard card).1 (formatCard card).2
    ["exemplar", "vocabulary", lowercase card.word]

/-- The addNote submission inside AnkiService.addCard (anki.ts 84-109): issues
the addNote request; on success (error null, note id returned) and when the
card carries audio, additionally issues the best-effort storeMediaFile call of
addAudioToCard (anki.ts 179-198), whose own failure is swallowed. -/
def addNoteStep (card : AnkiCard) (deckName : String) (s : RemoteState) :
    Bool × RemoteState × List Call :=
  let ok := s.noteOk s.sent
  let s1 : RemoteState := { s with sent := s.sent + 1 }
  let audioCalls : List Call :=
    if ok && card.audioUrl.isSome then [Call.storeMedia (card.word ++ "_audio.mp3")] else []
  (ok, s1, noteOf deckName card :: audioCalls)

/-- AnkiService.addCard (anki.ts 68-114): ensure the deck exists (query names,
create when absent; a failed creation throws, is caught and yields false before
any addNote), then submit the note; any error is caught and yields false. -/
def addCard (card : AnkiCard) (deckName : String) (s : RemoteState) :
    Bool × RemoteState × List Call :=
  let (names, s1, t1) := getDeckNamesStep s
  if names.contains deckName then
    let (ok, s2, t2) := addNoteStep card deckName s1
    (ok, s2, t1 ++ t2)
  else
    let (created, s2, t2) := createDeckStep deckName s1
    if created then
      let (ok, s3, t3) := addNoteStep card deckName s2
      (ok, s3, t1 ++ t2 ++ t3)
    else
      (false, s2, t1 ++ t2)

/-- AnkiService.addCards (anki.ts 116-133): sequential loop over the cards,
counting per-card true/false results into a success/failed tally.  The default
deck name at the call sites is "Exemplar::Vocabulary". -/
def addCards (cards : List AnkiCard) (deckName : String) (s : RemoteState) :
    (Nat × Nat) × RemoteState × List Call :=
  match cards with
  | [] => ((0, 0), s, [])
  | card :: rest =>
    let (ok, s1, t1) := addCard card deckName s
    let (tally, s2, t2) := addCards rest deckName s1
    (if ok then (tally.1 + 1, tally.2) else (tally.1, tally.2 + 1), s2, t1 ++ t2)

/-- Outcome of one awaited promise as seen by Promise.allSettled (or by a bare
await: fulfilled with a value, or rejected). -/
inductive Settled (α : Type) where
  | fulfilled (v : α)
  | rejected
deriving DecidableEq

/-- The slice of the App component state (src/unnamed/part_000, lines 21-34)
touched by handleSearch and handlePageChange. -/
structure AppState where
  currentWord : String
  searchResult : Option SearchResult
  paginatedImages : Option PaginatedImageResult
  explanation : Option String
  isLoading : Bool
  isImagesLoading : Bool
  selectedPhrases : List ExamplePhrase
  selectedImages : List ImageResult
  ankiMode : Bool
deriving DecidableEq

/-- One electronAPI request issued by the App handlers. -/
inductive ApiCall where
  | addSearch (word : String)
  | searchImages (word : String) (page : Nat) (perPage : Nat)
  | generatePhrases (word : String)
  | generateExplanation (word : String)
deriving DecidableEq

/-- Scripted behaviour of the four collaborators during one handleSearch run:
whether the history append fulfills, and the settled outcome of each of the
three parallel lookups. -/
structure SearchEnv where
  addSearchOk : Bool
  imagesOutcome : Settled PaginatedImageResult
  phrasesOutcome : Settled (List ExamplePhrase)
  explanationOutcome : Settled String
deriving DecidableEq

/-- The empty paginated fallback substituted when the image lookup rejects
(part_000, lines 100-109). -/
def emptyPaginated : PaginatedImageResult :=
  { images := [], currentPage := 1, totalPages := 1, hasNext := false, hasPrevious := false }

/-- handleSearch (part_000, lines 76-142).  A word whose trim is empty returns
at once.  Otherwise the pre-search resets run, then `addSearch` is awaited
inside the try: its rejection jumps to the catch (skipping the three lookups)
and the finally clears the loading flags.  When it fulfills, the three lookups
are issued and settled, each rejection replaced by its fallback, and the merged
result is stored. -/
def handleSearch (word : String) (env : SearchEnv) (s : AppState) :
    AppState × List ApiCall :=
  if jsTrim word = "" then (s, [])
  else
    let s1 : AppState :=
      { s with isLoading := true, isImagesLoading := true, currentWord := word,
               explanation := none, paginatedImages := none,
               selectedPhrases := [], selectedImages := [], ankiMode := false }
    if env.addSearchOk then
      let imageResults : PaginatedImageResult :=
        match env.imagesOutcome with
        | Settled.fulfilled v => v
        | Settled.rejected =>
          { images := [], currentPage := 1, totalPages := 1, hasNext := false, hasPrevious := false }
      let phraseResults : List ExamplePhrase :=
        match env.phrasesOutcome with
        | Settled.fulfilled v => v
        | Settled.rejected => []
      let explanationResult : Option String :=
        match env.explanationOutcome with
        | Settled.fulfilled v => some v
        | Settled.rejected => none
      ({ s1 with paginatedImages := some imageResults,
                 searchResult := some { word := word, images := imageResults.images,
                                        phrases := phraseResults },
                 explanation := explanationResult,
                 isLoading := false, isImagesLoading := false },
       [ApiCall.addSearch word, ApiCall.searchImages word 1 6,
        ApiCall.generatePhrases word, ApiCall.generateExplanation word])
    else
      ({ s1 with isLoading := false, isImagesLoading := false },
       [ApiCall.addSearch word])

/-- First phase of handlePageChange (part_000, lines 144-147): the guard drops
the request when the current word is empty or an image request is already in
flight; otherwise the in-flight flag is raised and the image lookup is issued. -/
def handlePageChangeStart (page : Nat) (s : AppState) : Option (AppState × ApiCall) :=
  if s.currentWord = "" || s.isImagesLoading then none
  else some ({ s with isImagesLoading := true },
             ApiCall.searchImages s.currentWord page 6)

/-- Second phase of handlePageChange (part_000, lines 149-168): on a fulfilled
response the paginated result is replaced and the new image list is spliced
into the merged result (phrases untouched); on a rejection only the log runs;
the finally lowers the in-flight flag in both cases. -/
def handlePageChangeFinish (outcome : Settled PaginatedImageResult) (s : AppState) : AppState :=
  match outcome with
  | Settled.fulfilled r =>
    { s with paginatedImages := some r,
             searchResult := s.searchResult.map (fun prev => { prev with images := r.images }),
             isImagesLoading := false }
  | Settled.rejected => { s with isImagesLoading := false }

/-- handlePageChange run to completion against a scripted response: the two
phases composed, also returning the issued calls. -/
def handlePageChange (page : Nat) (outcome : Settled PaginatedImageResult) (s : AppState) :
    AppState × List ApiCall :=
  match handlePageChangeStart page s with
  | none => (s, [])
  | some (s1, call) => (handlePageChangeFinish outcome s1, [call])

/-- Naive substring test over character lists, used to state the formatting
claims. -/
def containsSub (needle : List Char) : List Char → Bool
  | [] => needle.isEmpty
  | c :: rest => needle.isPrefixOf (c :: rest) || containsSub needle rest

/-- String containment: `strContains hay needle` is true iff needle occurs
contiguously in hay. -/
def strContains (hay needle : String) : Bool :=
  containsSub needle.data hay.data

/-- True exactly on addNote requests. -/
def isAddNote : Call → Bool
  | Call.addNote _ _ _ _ _ => true
  | _ => false

/-- True exactly on createDeck requests. -/
def isCreateDeck : Call → Bool
  | Call.createDeck _ => true
  | _ => false

/-- Number of successful addNote outcomes among n consecutive submissions whose
first one is the k-th request of the session. -/
def okCount (f : Nat → Bool) : Nat → Nat → Nat
  | _, 0 => 0
  | k, n + 1 => (if f k then 1 else 0) + okCount f (k + 1) n

/-- Number of failed addNote outcomes among n consecutive submissions starting
at request index k. -/
def badCount (f : Nat → Bool) : Nat → Nat → Nat
  | _, 0 => 0
  | k, n + 1 => (if f k then 0 else 1) + badCount f (k + 1) n

/-- Requests issued by one addCard run when the deck is already present: the
deck query, the note submission, and the media call when the note was created
and the card carries audio. -/
def cardTrace (d : String) (ok : Bool) (c : AnkiCard) : List Call :=
  Call.deckNames :: noteOf d c ::
    (if ok && c.audioUrl.isSome then [Call.storeMedia (c.word ++ "_audio.mp3")] else [])

/-- Requests issued by an addCards run over `cards` when the deck is present
throughout, with note outcomes read from f starting at index k. -/
def cardsTrace (d : String) (f : Nat → Bool) : Nat → List AnkiCard → List Call
  | _, [] => []
  | k, c :: rest => cardTrace d (f k) c ++ cardsTrace d f (k + 1) rest

/-- Requests issued by an addCards run in which every per-card deck-ensure
fails: one deck query and one failed creation per card, nothing else. -/
def ensureFailTrace (d : String) : Nat → List Call
  | 0 => []
  | n + 1 => Call.deckNames :: Call.createDeck d :: ensureFailTrace d n

/-! Concrete fixtures for witnesses and counterexamples. -/

/-- The default deck name of AnkiService.addCard / addCards. -/
def vocabDeck : String := "Exemplar::Vocabulary"

/-- The phrase of the spec's round-trip example. -/
def casaPhrase : ExamplePhrase :=
  { text := "mi casa", translation := "my house", category := "nouns" }

/-- The card of the spec's round-trip example. -/
def casaCard : AnkiCard :=
  { word := "casa", explanation := "house", phrase := casaPhrase,
    image := none, audioUrl := none }

/-- A second sample card. -/
def perroCard : AnkiCard :=
  { word := "perro", explanation := "dog",
    phrase := { text := "el perro", translation := "the dog", category := "nouns" },
    image := none, audioUrl := none }

/-- A remote with no decks where createDeck fails. -/
def remoteCreateFails : RemoteState :=
  { decks := [], deckNamesOk := true, createDeckOk := false,
    noteOk := fun _ => true, sent := 0 }

/-- A healthy remote with no decks. -/
def remoteFresh : RemoteState :=
  { decks := [], deckNamesOk := true, createDeckOk := true,
    noteOk := fun _ => true, sent := 0 }

/-- A healthy remote that already has the default deck. -/
def remotePresent : RemoteState :=
  { decks := ["Exemplar::Vocabulary"], deckNamesOk := true, createDeckOk := true,
    noteOk := fun _ => true, sent := 0 }

/-- A remote with the default deck whose second and fourth addNote requests
fail. -/
def remoteMixed : RemoteState :=
  { decks := ["Exemplar::Vocabulary"], deckNamesOk := true, createDeckOk := true,
    noteOk := fun i => !(i == 1 || i == 3), sent := 0 }

/-- Five sample cards. -/
def fiveCards : List AnkiCard :=
  [casaCard, perroCard, casaCard, perroCard, casaCard]

/-- A fresh App session state. -/
def appFresh : AppState :=
  { currentWord := "", searchResult := none, paginatedImages := none,
    explanation := none, isLoading := false, isImagesLoading := false,
    selectedPhrases := [], selectedImages := [], ankiMode := false }

/-- A sample image and a one-page image result. -/
def sampleImage : ImageResult := { thumbnail := "https://img.example/casa.jpg" }

/-- A sample fulfilled paginated image result. -/
def samplePage : PaginatedImageResult :=
  { images := [sampleImage], currentPage := 1, totalPages := 2,
    hasNext := true, hasPrevious := false }

/-- An App state mid-session on the word casa with an image request in flight. -/
def appBusy : AppState :=
  { currentWord := "casa",
    searchResult := some { word := "casa", images := [sampleImage], phrases := [casaPhrase] },
    paginatedImages := some samplePage, explanation := some "a house",
    isLoading := false, isImagesLoading := true,
    selectedPhrases := [casaPhrase], selectedImages := [sampleImage], ankiMode := true }

/-- Like appBusy but with no request in flight. -/
def appIdle : AppState :=
  { appBusy with isImagesLoading := false }

/-- Collaborators all succeeding. -/
def envAllOk : SearchEnv :=
  { addSearchOk := true, imagesOutcome := Settled.fulfilled samplePage,
    phrasesOutcome := Settled.fulfilled [casaPhrase],
    explanationOutcome := Settled.fulfilled "a house" }

/-- Collaborators where only the image lookup rejects. -/
def envImagesReject : SearchEnv :=
  { addSearchOk := true, imagesOutcome := Settled.rejected,
    phrasesOutcome := Settled.fulfilled [casaPhrase],
    explanationOutcome := Settled.fulfilled "a house" }

/-- Collaborators where only the history append rejects. -/
def envHistoryFails : SearchEnv :=
  { addSearchOk := false, imagesOutcome := Settled.fulfilled samplePage,
    phrasesOutcome := Settled.fulfilled [casaPhrase],
    explanationOutcome := Settled.fulfilled "a house" }

/-- A second page of image results. -/
def samplePage2 : PaginatedImageResult :=
  { images := [{ thumbnail := "https://img.example/casa2.jpg" }],
    currentPage := 2, totalPages := 2, hasNext := false, hasPrevious := true }

/-- A card whose word carries an uppercase letter, to exercise the tag
lowercasing. -/
def casaUpper : AnkiCard :=
  { word := "Casa", explanation := "house", phrase := casaPhrase,
    image := none, audioUrl := none }

/-! Lemmas about the AnkiService embedding. -/

/-- One addCard run against a healthy remote that already has the deck: the
result is the scripted note outcome, only the request counter moves, and the
trace is the deck query followed by the note submission. -/
theorem addCard_deckPresent (c : AnkiCard) (d : String) (s : RemoteState)
    (hd : s.decks.contains d = true) (hok : s.deckNamesOk = true) :
    addCard c d s = (s.noteOk s.sent, { s with sent := s.sent + 1 },
      cardTrace d (s.noteOk s.sent) c) := by
  have hm : d ∈ s.decks := by simpa using hd
  simp [addCard, getDeckNamesStep, addNoteStep, hok, hm, cardTrace]

/-- An addCards run against a healthy remote that already has the deck:
the tally counts the scripted outcomes, the request counter advances by the
number of cards, and the trace is one deck query plus one note submission per
card. -/
theorem addCards_deckPresent (cards : List AnkiCard) (d : String) :
    ∀ s : RemoteState, s.decks.contains d = true → s.deckNamesOk = true →
      addCards cards d s =
        ((okCount s.noteOk s.sent cards.length, badCount s.noteOk s.sent cards.length),
         { s with sent := s.sent + cards.length },
         cardsTrace d s.noteOk s.sent cards) := by
  induction cards with
  | nil =>
    intro s _ _
    simp [addCards, okCount, badCount, cardsTrace]
  | cons c rest ih =>
    intro s hd hok
    have h1 := addCard_deckPresent c d s hd hok
    have h2 := ih { s with sent := s.sent + 1 } hd hok
    simp only [addCards, h1, h2, cardsTrace, okCount, badCount, List.length_cons]
    cases hf : s.noteOk s.sent <;>
      simp [hf, Nat.add_comm, Nat.add_assoc, Nat.add_left_comm]

/-- The deck-present trace contains no createDeck request. -/
theorem cardsTrace_countP_createDeck (d : String) (f : Nat → Bool) (cards : List AnkiCard) :
    ∀ k, (cardsTrace d f k cards).countP isCreateDeck = 0 := by
  induction cards with
  | nil => intro k; simp [cardsTrace]
  | cons c rest ih =>
    intro k
    cases hb : (f k && c.audioUrl.isSome) <;>
      simp [cardsTrace, cardTrace, hb, List.countP_cons, isCreateDeck, noteOf, ih]

/-- The addNote requests of a deck-present trace are exactly one note per card,
in order. -/
theorem cardsTrace_filter_addNote (d : String) (f : Nat → Bool) (cards : List AnkiCard) :
    ∀ k, (cardsTrace d f k cards).filter isAddNote = cards.map (noteOf d) := by
  induction cards with
  | nil => intro k; simp [cardsTrace]
  | cons c rest ih =>
    intro k
    cases hb : (f k && c.audioUrl.isSome) <;>
      simp [cardsTrace, cardTrace, hb, isAddNote, noteOf, ih]

/-- Success and failure counts over the same window sum to its size. -/
theorem okCount_add_badCount (f : Nat → Bool) (n : Nat) :
    ∀ k, okCount f k n + badCount f k n = n := by
  induction n with
  | zero => intro k; simp [okCount, badCount]
  | succ m ih =>
    intro k
    have h := ih (k + 1)
    cases hf : f k <;> simp [okCount, badCount, hf] <;> omega

/-- One addCard run when the deck is absent and creation fails: the card fails
with no addNote issued, and the remote is left unchanged. -/
theorem addCard_absent_createFail (c : AnkiCard) (d : String) (s : RemoteState)
    (hd : s.decks.contains d = false) (hc : s.createDeckOk = false) :
    addCard c d s = (false, s, [Call.deckNames, Call.createDeck d]) := by
  have hm : d ∉ s.decks := by simpa using hd
  cases hn : s.deckNamesOk <;>
    simp [addCard, getDeckNamesStep, createDeckStep, hn, hm, hc]

/-- An addCards run when the deck is absent and creation persistently fails:
every card is still processed (the deck-ensure is re-attempted per card), no
addNote is ever issued, and the run completes with the tally (0, n). -/
theorem addCards_absent_createFail (cards : List AnkiCard) (d : String) :
    ∀ s : RemoteState, s.decks.contains d = false → s.createDeckOk = false →
      addCards cards d s = ((0, cards.length), s, ensureFailTrace d cards.length) := by
  induction cards with
  | nil => intro s _ _; simp [addCards, ensureFailTrace]
  | cons c rest ih =>
    intro s hd hc
    have h1 := addCard_absent_createFail c d s hd hc
    simp [addCards, h1, ih s hd hc, ensureFailTrace]

/-- The all-ensure-failed trace has no addNote request. -/
theorem ensureFailTrace_countP_addNote (d : String) (n : Nat) :
    (ensureFailTrace d n).countP isAddNote = 0 := by
  induction n with
  | zero => simp [ensureFailTrace]
  | succ m ih => simp [ensureFailTrace, List.countP_cons, isAddNote, ih]

/-- The all-ensure-failed trace has one createDeck attempt per card. -/
theorem ensureFailTrace_countP_createDeck (d : String) (n : Nat) :
    (ensureFailTrace d n).countP isCreateDeck = n := by
  induction n with
  | zero => simp [ensureFailTrace]
  | succ m ih => simp [ensureFailTrace, List.countP_cons, isCreateDeck, ih]

/-- Unfolding of the sequential addCards loop on a cons cell, stated through
projections (structure eta). -/
theorem addCards_cons_eval (c : AnkiCard) (rest : List AnkiCard) (d : String) (s : RemoteState) :
    addCards (c :: rest) d s =
      ((if (addCard c d s).1 then
          ((addCards rest d (addCard c d s).2.1).1.1 + 1,
           (addCards rest d (addCard c d s).2.1).1.2)
        else
          ((addCards rest d (addCard c d s).2.1).1.1,
           (addCards rest d (addCard c d s).2.1).1.2 + 1)),
       (addCards rest d (addCard c d s).2.1).2.1,
       (addCard c d s).2.2 ++ (addCards rest d (addCard c d s).2.1).2.2) := rfl

/-- Against any remote behaviour, the addCards tally components sum to the
number of cards attempted. -/
theorem addCards_tally (cards : List AnkiCard) (d : String) :
    ∀ s : RemoteState, (addCards cards d s).1.1 + (addCards cards d s).1.2 = cards.length := by
  induction cards with
  | nil => intro s; simp [addCards]
  | cons c rest ih =>
    intro s
    rw [addCards_cons_eval]
    have h2 := ih (addCard c d s).2.1
    cases h : (addCard c d s).1 <;> simp [h] <;> omega

/-- Any addNote request in an addCard trace carries the model "Basic" and the
tag list built from the card's lowercased word. -/
theorem addCard_mem_addNote (c : AnkiCard) (d : String) (s : RemoteState)
    (dk mo fr ba : String) (tg : List String)
    (h : Call.addNote dk mo fr ba tg ∈ (addCard c d s).2.2) :
    mo = "Basic" ∧ tg = ["exemplar", "vocabulary", lowercase c.word] := by
  cases hn : s.deckNamesOk <;> cases hc : s.createDeckOk <;>
    simp only [addCard, getDeckNamesStep, createDeckStep, addNoteStep, noteOf, hn, hc,
      if_true, if_false, Bool.false_eq_true, ite_true, ite_false] at h <;>
    split at h <;>
    simp_all only [List.mem_cons, List.mem_append, List.mem_singleton, List.not_mem_nil,
      or_false, false_or] <;>
    rcases h with h | h | h <;> simp_all [Call.addNote.injEq]

/-- One addCard run when the deck is absent, against a healthy remote where
creation succeeds: the deck is created and registered, then the note is
submitted. -/
theorem addCard_absent_createOk (c : AnkiCard) (d : String) (s : RemoteState)
    (hd : s.decks.contains d = false) (hn : s.deckNamesOk = true)
    (hc : s.createDeckOk = true) :
    addCard c d s =
      (s.noteOk s.sent,
       { s with decks := s.decks ++ [d], sent := s.sent + 1 },
       Call.deckNames :: Call.createDeck d :: noteOf d c ::
         (if s.noteOk s.sent && c.audioUrl.isSome then
            [Call.storeMedia (c.word ++ "_audio.mp3")] else [])) := by
  have hm : d ∉ s.decks := by simpa using hd
  simp [addCard, getDeckNamesStep, createDeckStep, addNoteStep, hn, hm, hc]

/-- The deck-present trace has exactly one addNote request per card. -/
theorem cardsTrace_countP_addNote (d : String) (f : Nat → Bool) (cards : List AnkiCard)
    (k : Nat) : (cardsTrace d f k cards).countP isAddNote = cards.length := by
  rw [List.countP_eq_length_filter, cardsTrace_filter_addNote, List.length_map]

/-- Trace of the sequential loop on a cons cell: the first card's requests
followed by the rest's. -/
theorem addCards_trace_cons (c : AnkiCard) (rest : List AnkiCard) (d : String)
    (s : RemoteState) :
    (addCards (c :: rest) d s).2.2 =
      (addCard c d s).2.2 ++ (addCards rest d (addCard c d s).2.1).2.2 := rfl

/-- Any addNote request in an addCards trace carries the model "Basic" and the
tag list of one of the submitted cards: exemplar, vocabulary and the card's
lowercased word. -/
theorem addCards_mem_addNote (cards : List AnkiCard) (d : String) :
    ∀ (s : RemoteState) (dk mo fr ba : String) (tg : List String),
      Call.addNote dk mo fr ba tg ∈ (addCards cards d s).2.2 →
      mo = "Basic" ∧ ∃ c ∈ cards, tg = ["exemplar", "vocabulary", lowercase c.word] := by
  induction cards with
  | nil => intro s dk mo fr ba tg h; simp [addCards] at h
  | cons c rest ih =>
    intro s dk mo fr ba tg h
    rw [addCards_trace_cons, List.mem_append] at h
    rcases h with h | h
    · have hx := addCard_mem_addNote c d s dk mo fr ba tg h
      exact ⟨hx.1, c, by simp, hx.2⟩
    · have hx := ih (addCard c d s).2.1 dk mo fr ba tg h
      obtain ⟨c', hc', ht⟩ := hx.2
      exact ⟨hx.1, c', by simp [hc'], ht⟩

/-! Claim theorems. -/

/-- C1 (counterexample): with the target deck absent and deck creation failing,
an export of two cards does NOT abort: it runs to completion with the tally
(0, 2) — exactly a completed run with all cards failed, which the claim says
the outcome is distinct from — and the deck-ensure is even re-attempted for
the second card (two createDeck calls, not a fail-fast abort). -/
theorem claim_C1_counterexample :
    (addCards [casaCard, perroCard] vocabDeck remoteCreateFails).1 = (0, 2)
  ∧ (addCards [casaCard, perroCard] vocabDeck remoteCreateFails).2.2 =
      [Call.deckNames, Call.createDeck vocabDeck,
       Call.deckNames, Call.createDeck vocabDeck] :=
  ⟨rfl, rfl⟩

/-- C1 (amended): when the deck is absent and creation fails, no addNote call
is ever issued and the remote is unchanged — but the export does not abort: the
deck-ensure failure is caught per card, every card is still processed (one
createDeck attempt each) and the run completes with the tally (0, n). -/
theorem claim_C1_no_addNote_but_no_abort (cards : List AnkiCard) (d : String)
    (s : RemoteState) (hd : s.decks.contains d = false) (hc : s.createDeckOk = false) :
    (addCards cards d s).1 = (0, cards.length)
  ∧ ((addCards cards d s).2.2).countP isAddNote = 0
  ∧ ((addCards cards d s).2.2).countP isCreateDeck = cards.length
  ∧ (addCards cards d s).2.1 = s := by
  have h := addCards_absent_createFail cards d s hd hc
  rw [h]
  exact ⟨rfl, ensureFailTrace_countP_addNote d _, ensureFailTrace_countP_createDeck d _, rfl⟩

/-- C1 (witness): the amended statement applied to a concrete failing remote. -/
theorem claim_C1_witness :
    (addCards [casaCard, perroCard] vocabDeck remoteCreateFails).1 = (0, [casaCard, perroCard].length)
  ∧ ((addCards [casaCard, perroCard] vocabDeck remoteCreateFails).2.2).countP isAddNote = 0
  ∧ ((addCards [casaCard, perroCard] vocabDeck remoteCreateFails).2.2).countP isCreateDeck =
      [casaCard, perroCard].length
  ∧ (addCards [casaCard, perroCard] vocabDeck remoteCreateFails).2.1 = remoteCreateFails :=
  claim_C1_no_addNote_but_no_abort [casaCard, perroCard] vocabDeck remoteCreateFails rfl rfl

/-- C2: exporting n phrases against a healthy remote without the target deck
issues exactly one createDeck — the second request, preceded only by the deck
query, with no further createDeck afterwards — and the addNote requests are
exactly one note per card in selection order. -/
theorem claim_C2_create_once_then_notes_in_order (cards : List AnkiCard) (d : String)
    (s : RemoteState) (hne : cards ≠ []) (hd : s.decks.contains d = false)
    (hn : s.deckNamesOk = true) (hc : s.createDeckOk = true) :
    (∃ t, (addCards cards d s).2.2 = Call.deckNames :: Call.createDeck d :: t
        ∧ t.countP isCreateDeck = 0)
  ∧ ((addCards cards d s).2.2).filter isAddNote = cards.map (noteOf d) := by
  match cards with
  | [] => exact absurd rfl hne
  | c :: rest =>
    have h1 := addCard_absent_createOk c d s hd hn hc
    have hd1 : (RemoteState.mk (s.decks ++ [d]) s.deckNamesOk s.createDeckOk s.noteOk
        (s.sent + 1)).decks.contains d = true := by simp
    have h2 := addCards_deckPresent rest d
      { s with decks := s.decks ++ [d], sent := s.sent + 1 } hd1 hn
    rw [addCards_trace_cons, h1, h2]
    constructor
    · refine ⟨noteOf d c ::
        ((if s.noteOk s.sent && c.audioUrl.isSome then
            [Call.storeMedia (c.word ++ "_audio.mp3")] else []) ++
          cardsTrace d s.noteOk (s.sent + 1) rest), by simp, ?_⟩
      cases hb : (s.noteOk s.sent && c.audioUrl.isSome) <;>
        simp [hb, List.countP_cons, List.countP_append, isCreateDeck, noteOf,
          cardsTrace_countP_createDeck]
    · cases hb : (s.noteOk s.sent && c.audioUrl.isSome) <;>
        simp [hb, isAddNote, isCreateDeck, noteOf, cardsTrace_filter_addNote]

/-- C2 (witness): the concrete single-card export against a fresh remote. -/
theorem claim_C2_witness :
    (∃ t, (addCards [casaCard] vocabDeck remoteFresh).2.2 =
          Call.deckNames :: Call.createDeck vocabDeck :: t
        ∧ t.countP isCreateDeck = 0)
  ∧ ((addCards [casaCard] vocabDeck remoteFresh).2.2).filter isAddNote =
      [casaCard].map (noteOf vocabDeck) :=
  claim_C2_create_once_then_notes_in_order [casaCard] vocabDeck remoteFresh
    (by simp) rfl rfl rfl

/-- C5: against a remote that has the deck, every card of the batch is
attempted (one addNote request per card, no early abort) and the tally counts
exactly the successful and the failed submissions. -/
theorem claim_C5_partial_failures_counted (cards : List AnkiCard) (d : String)
    (s : RemoteState) (hd : s.decks.contains d = true) (hn : s.deckNamesOk = true)
    (_hfail : ∃ i, i < cards.length ∧ s.noteOk (s.sent + i) = false)
    (_hsucc : ∃ j, j < cards.length ∧ s.noteOk (s.sent + j) = true) :
    ((addCards cards d s).2.2).countP isAddNote = cards.length
  ∧ (addCards cards d s).1.1 = okCount s.noteOk s.sent cards.length
  ∧ (addCards cards d s).1.2 = badCount s.noteOk s.sent cards.length
  ∧ (addCards cards d s).1.1 + (addCards cards d s).1.2 = cards.length := by
  have h := addCards_deckPresent cards d s hd hn
  rw [h]
  exact ⟨cardsTrace_countP_addNote d s.noteOk cards s.sent, rfl, rfl,
    okCount_add_badCount s.noteOk cards.length s.sent⟩

/-- C5 (witness): 2 of 5 submissions fail; the outcome is (3, 2) and all five
addNote requests were issued. -/
theorem claim_C5_witness :
    (addCards fiveCards vocabDeck remoteMixed).1.1 = 3
  ∧ (addCards fiveCards vocabDeck remoteMixed).1.2 = 2
  ∧ ((addCards fiveCards vocabDeck remoteMixed).2.2).countP isAddNote = 5 := by
  have h := claim_C5_partial_failures_counted fiveCards vocabDeck remoteMixed rfl rfl
    ⟨1, by decide, rfl⟩ ⟨0, by decide, rfl⟩
  exact ⟨h.2.1.trans (by decide), h.2.2.1.trans (by decide), h.1.trans (by decide)⟩

/-- C6: for every list of cards and every remote behaviour, the export
coordinator returns a tally whose success and failure counts sum to the number
of cards attempted (the counts are naturals, hence nonnegative), and the empty
batch yields (0, 0).  The embedding of addCards is a total function: every
lower-level failure is absorbed into the tally, none escapes. -/
theorem claim_C6_tally_well_formed (cards : List AnkiCard) (d : String) (s : RemoteState) :
    (addCards cards d s).1.1 + (addCards cards d s).1.2 = cards.length
  ∧ (addCards ([] : List AnkiCard) d s).1 = (0, 0) :=
  ⟨addCards_tally cards d s, rfl⟩

/-- C10: every addNote request of an export carries the model name "Basic" and
exactly the tags exemplar, vocabulary and the lowercased word of one of the
submitted cards. -/
theorem claim_C10_model_and_tags (cards : List AnkiCard) (d : String) (s : RemoteState)
    (dk mo fr ba : String) (tg : List String)
    (h : Call.addNote dk mo fr ba tg ∈ (addCards cards d s).2.2) :
    mo = "Basic" ∧ ∃ c ∈ cards, tg = ["exemplar", "vocabulary", lowercase c.word] :=
  addCards_mem_addNote cards d s dk mo fr ba tg h

/-- C10 (witness): the note submitted for the word "Casa" carries model "Basic"
and the lowercased tag "casa". -/
theorem claim_C10_witness :
    "Basic" = "Basic"
  ∧ ∃ c ∈ [casaUpper], ["exemplar", "vocabulary", "casa"] =
      ["exemplar", "vocabulary", lowercase c.word] :=
  claim_C10_model_and_tags [casaUpper] vocabDeck remotePresent vocabDeck "Basic"
    (formatCard casaUpper).1 (formatCard casaUpper).2 ["exemplar", "vocabulary", "casa"]
    (by decide)

/-- C3: when the image lookup rejects (and the search proceeds, i.e. the word
is not whitespace-only and the history append fulfills), the stored pagination
state is the empty fallback (no images, currentPage 1, totalPages 1, hasNext
and hasPrevious false), the merged result has an empty image list while its
phrases are whatever the phrase source produced, the explanation is whatever
its source produced, and all three lookups were still issued. -/
theorem claim_C3_image_reject_isolated (word : String) (env : SearchEnv) (s : AppState)
    (hw : ¬ jsTrim word = "") (ha : env.addSearchOk = true)
    (hi : env.imagesOutcome = Settled.rejected) :
    (handleSearch word env s).1.paginatedImages = some emptyPaginated
  ∧ (handleSearch word env s).1.searchResult =
      some { word := word, images := [],
             phrases := match env.phrasesOutcome with
                        | Settled.fulfilled v => v
                        | Settled.rejected => [] }
  ∧ (handleSearch word env s).1.explanation =
      (match env.explanationOutcome with
       | Settled.fulfilled v => some v
       | Settled.rejected => none)
  ∧ (handleSearch word env s).2 =
      [ApiCall.addSearch word, ApiCall.searchImages word 1 6,
       ApiCall.generatePhrases word, ApiCall.generateExplanation word] := by
  cases hp : env.phrasesOutcome <;> cases he : env.explanationOutcome <;>
    simp [handleSearch, hw, ha, hi, hp, he, emptyPaginated]

/-- C3 (witness): the concrete search for casa with only the image source
rejecting. -/
theorem claim_C3_witness :
    (handleSearch "casa" envImagesReject appFresh).1.paginatedImages = some emptyPaginated
  ∧ (handleSearch "casa" envImagesReject appFresh).1.searchResult =
      some { word := "casa", images := [], phrases := [casaPhrase] }
  ∧ (handleSearch "casa" envImagesReject appFresh).1.explanation = some "a house"
  ∧ (handleSearch "casa" envImagesReject appFresh).2 =
      [ApiCall.addSearch "casa", ApiCall.searchImages "casa" 1 6,
       ApiCall.generatePhrases "casa", ApiCall.generateExplanation "casa"] :=
  claim_C3_image_reject_isolated "casa" envImagesReject appFresh (by decide) rfl rfl

/-- C4 (counterexample): the history append is not fire-and-forget.  With all
three lookup sources ready to fulfill but the history-record call rejecting,
the search issues only the addSearch call — no image, phrase or explanation
lookup — and stores no merged result. -/
theorem claim_C4_counterexample :
    (handleSearch "casa" envHistoryFails appFresh).2 = [ApiCall.addSearch "casa"]
  ∧ (handleSearch "casa" envHistoryFails appFresh).1.searchResult = none :=
  ⟨rfl, rfl⟩

/-- C4 (amended): the history append is awaited inside the try before the
lookups, so its failure aborts the search body: no lookup is issued and no
merged result is produced or stored; only the pre-search resets (current word,
cleared selections, exited anki mode, reset explanation and pagination) and the
finally-clause loading-flag resets take effect. -/
theorem claim_C4_history_failure_aborts (word : String) (env : SearchEnv) (s : AppState)
    (hw : ¬ jsTrim word = "") (ha : env.addSearchOk = false) :
    handleSearch word env s =
      ({ s with currentWord := word, explanation := none, paginatedImages := none,
                selectedPhrases := [], selectedImages := [], ankiMode := false,
                isLoading := false, isImagesLoading := false },
       [ApiCall.addSearch word]) := by
  simp [handleSearch, hw, ha]

/-- C4 (witness): the amended statement at a concrete mid-session state; the
previous merged result survives untouched. -/
theorem claim_C4_witness :
    handleSearch "perro" envHistoryFails appIdle =
      ({ appIdle with currentWord := "perro", explanation := none, paginatedImages := none,
                      selectedPhrases := [], selectedImages := [], ankiMode := false,
                      isLoading := false, isImagesLoading := false },
       [ApiCall.addSearch "perro"]) :=
  claim_C4_history_failure_aborts "perro" envHistoryFails appIdle (by decide) rfl

/-- C7: a page change requested while an image request is in flight or while
the current word is empty is dropped with no state change and no call issued;
on a rejected response the prior state (images, pagination, everything) is left
unchanged; on a fulfilled response only the pagination state and the merged
result's images field are replaced — phrases, selections and the rest are
untouched. -/
theorem claim_C7_page_change_guarded (page : Nat) (outcome : Settled PaginatedImageResult)
    (s : AppState) :
    ((s.isImagesLoading = true ∨ s.currentWord = "") →
       handlePageChange page outcome s = (s, []))
  ∧ (s.isImagesLoading = false → ¬ s.currentWord = "" →
       (outcome = Settled.rejected →
          handlePageChange page outcome s =
            (s, [ApiCall.searchImages s.currentWord page 6]))
     ∧ ∀ r, outcome = Settled.fulfilled r →
         handlePageChange page outcome s =
           ({ s with paginatedImages := some r,
                     searchResult :=
                       s.searchResult.map (fun prev => { prev with images := r.images }) },
            [ApiCall.searchImages s.currentWord page 6])) := by
  constructor
  · intro h
    rcases h with h | h <;> simp [handlePageChange, handlePageChangeStart, h]
  · intro hl hw
    constructor
    · intro ho
      subst ho
      simp [handlePageChange, handlePageChangeStart, handlePageChangeFinish, hl, hw]
      rw [← hl]
    · intro r ho
      subst ho
      simp [handlePageChange, handlePageChangeStart, handlePageChangeFinish, hl, hw]

/-- C7 (witness): the three cases at concrete states — dropped while in
flight, failure leaving the state unchanged, and success replacing only the
images. -/
theorem claim_C7_witness :
    handlePageChange 2 (Settled.fulfilled samplePage2) appBusy = (appBusy, [])
  ∧ handlePageChange 2 Settled.rejected appIdle =
      (appIdle, [ApiCall.searchImages "casa" 2 6])
  ∧ handlePageChange 2 (Settled.fulfilled samplePage2) appIdle =
      ({ appIdle with paginatedImages := some samplePage2,
                      searchResult := appIdle.searchResult.map
                        (fun prev => { prev with images := samplePage2.images }) },
       [ApiCall.searchImages "casa" 2 6]) :=
  ⟨(claim_C7_page_change_guarded 2 (Settled.fulfilled samplePage2) appBusy).1 (Or.inl rfl),
   ((claim_C7_page_change_guarded 2 Settled.rejected appIdle).2 rfl (by decide)).1 rfl,
   ((claim_C7_page_change_guarded 2 (Settled.fulfilled samplePage2) appIdle).2 rfl
      (by decide)).2 samplePage2 rfl⟩

/-- C8 (counterexample): the front fragment of the card built from casa /
house / (mi casa, my house, nouns) does NOT contain the category tag text
"nouns" — the front carries only the (optional) image and the word — so the
claim that both fragments contain "nouns" fails. -/
theorem claim_C8_counterexample :
    strContains (formatCard casaCard).1 "nouns" = false := by decide

/-- C8 (amended): both fragments contain the literal substring "casa", and the
back fragment contains the category tag text "nouns". -/
theorem claim_C8_front_back_contents :
    strContains (formatCard casaCard).1 "casa" = true
  ∧ strContains (formatCard casaCard).2 "casa" = true
  ∧ strContains (formatCard casaCard).2 "nouns" = true := by
  refine ⟨by decide, by decide, by decide⟩

/-- C9: searching a word that is empty or whitespace-only is a complete no-op:
the state is returned unchanged and no collaborator call is issued. -/
theorem claim_C9_blank_query_noop (word : String) (env : SearchEnv) (s : AppState)
    (h : jsTrim word = "") : handleSearch word env s = (s, []) := by
  simp [handleSearch, h]

/-- C9 (witness): a whitespace-only query against a mid-session state. -/
theorem claim_C9_witness :
    handleSearch "   " envAllOk appIdle = (appIdle, []) :=
  claim_C9_blank_query_noop "   " envAllOk appIdle (by decide)

end Exemplar
